import Mathlib

/-!
Verification of the synthparts analog-filter emulation engines.

The source is a family of AudioWorklet processors: two SEM state-variable
filter variants (sem-filter-processor.js, part_000), a Moog-style ladder
(part_001), and four WASP CMOS-SVF variants (wasp-processor.js holds two
classes, part_002, part_003, part_004).  JS numbers are embedded as exact
rationals; the 32-bit integer operations of the seeded RNG and the noise
LFSR are embedded as naturals reduced mod 2^32 at each bitwise step, which
is exact for the integer ranges involved.  The one transcendental in the
per-sample path, g = tan(pi * r), is factored out: the functions below that
take a coefficient `g` receive the value the source computes at the single
call site `Math.tan(Math.PI * r)`, and the ratio `r` fed to the tangent is
embedded separately for each variant (`semTanRatio` and friends), since the
claims about the tangent concern only the clamping of its argument.
-/

/-- Fast hyperbolic tangent approximation shared verbatim by every variant
(sem-filter-processor.js fastTanh, part_000/part_001 tanh, part_002/003/004
fastTanh/tanh): below -3 return -1, above 3 return 1, otherwise the Pade
form x*(27+x^2)/(27+9x^2). -/
def fastTanh (x : ℚ) : ℚ :=
  if x < -3 then -1
  else if x > 3 then 1
  else x * (27 + x ^ 2) / (27 + 9 * x ^ 2)

/-- Halfband decimator FIR coefficients, hard-coded identically in
sem-filter-processor.js halfbandDecimate (lines 133-145) and
part_000 halfbandDecimate (lines 121-125). -/
def halfbandCoeffs : List ℚ :=
  [320982 / 100000000, -(1442291 / 100000000), 4299436 / 100000000,
   -(9939089 / 100000000), 31546250 / 100000000, 50000000 / 100000000,
   31546250 / 100000000, -(9939089 / 100000000), 4299436 / 100000000,
   -(1442291 / 100000000), 320982 / 100000000]

/-- A JS number as seen by part_000 flushDenormal: either an exact rational
or NaN.  Only the comparison behaviour used there is modelled: every
comparison against NaN is false. -/
inductive JSVal where
  | num (q : ℚ)
  | nan
  deriving DecidableEq

/-- JS `x > t` for a possibly-NaN x: false on NaN. -/
def JSVal.gtQ : JSVal → ℚ → Bool
  | JSVal.num q, t => decide (q > t)
  | JSVal.nan, _ => false

/-- JS `x < t` for a possibly-NaN x: false on NaN. -/
def JSVal.ltQ : JSVal → ℚ → Bool
  | JSVal.num q, t => decide (q < t)
  | JSVal.nan, _ => false

/-- Denormal threshold of part_000 (this.denormalThreshold = 1e-18). -/
def denormalThreshold : ℚ := 1 / 10 ^ 18

/-- part_000 flushDenormal (lines 114-116), on possibly-NaN numbers:
return x when x > 1e-18 or x < -1e-18, else 0. -/
def flushDenormal (x : JSVal) : JSVal :=
  if x.gtQ denormalThreshold || x.ltQ (-denormalThreshold) then x
  else JSVal.num 0

/-- part_000 flushDenormal restricted to actual rationals; used inside the
embedded SEM sample processing where no NaN can arise. -/
def flushDenormalQ (x : ℚ) : ℚ :=
  if x > denormalThreshold ∨ x < -denormalThreshold then x else 0

/-- JS Math.round: round half toward positive infinity, i.e. floor(x+1/2). -/
def jsRound (x : ℚ) : ℤ := ⌊x + 1 / 2⌋

/-- Oversample-factor quantization of sem-filter-processor.js process
(lines 273-276) and part_000 process (lines 253-256): round, clamp below
to 1, clamp above to 4, and map 3 to 2. -/
def quantizeOversample (p : ℚ) : ℤ :=
  let r := jsRound p
  if r < 1 then 1
  else if r > 4 then 4
  else if r = 3 then 2
  else r

/-- Per-sample automation value extraction, written identically at every
parameter read site (e.g. sem-filter-processor.js lines 286-289,
wasp-processor.js lines 95-97): seq.length > 1 ? seq[i] : seq[0].
Out-of-range reads default to 0 as Float32Array reads never occur
out of range at these sites. -/
def resolveParam (seq : List ℚ) (i : ℕ) : ℚ :=
  if seq.length > 1 then seq.getD i 0 else seq.getD 0 0

/-- One call of the Mulberry32 closure created by createRNG
(sem-filter-processor.js lines 97-104, part_000 lines 86-93), for integer
seeds.  The closure keeps the running `seed` variable (first component);
each JS bitwise operation reinterprets its operands as 32-bit words, which
for the integer values reached here is reduction mod 2^32 of the bit
pattern, applied below at every bitwise step. -/
def mulberryNext (s : ℕ) : ℕ × ℚ :=
  let s' := s + 0x6D2B79F5
  let t0 := s' % 2 ^ 32
  let t1 := (Nat.xor t0 (t0 >>> 15) * (t0 ||| 1)) % 2 ^ 32
  let t2 := Nat.xor t1 ((t1 + (Nat.xor t1 (t1 >>> 7) * (t1 ||| 61)) % 2 ^ 32) % 2 ^ 32)
  let out := Nat.xor t2 (t2 >>> 14)
  (s', (out : ℚ) / 4294967296)

/-- The first n uniform [0,1) draws of a createRNG instance with the given
integer seed. -/
def mulberryStream (seed : ℕ) : ℕ → List ℚ
  | 0 => []
  | n + 1 =>
    let p := mulberryNext seed
    p.2 :: mulberryStream p.1 n

/-- Component-tolerance multipliers drawn at construction by
sem-filter-processor.js (lines 77-86): cutoff, resonance and capacitor
drifts, OTA asymmetries and bias offsets, in draw order. -/
structure SemDrift where
  cutoffDrift : ℚ
  resDrift : ℚ
  cap1Drift : ℚ
  cap2Drift : ℚ
  tanhAsymmetry1 : ℚ
  tanhAsymmetry2 : ℚ
  tanhBias1 : ℚ
  tanhBias2 : ℚ
  deriving DecidableEq

/-- The SEM constructor drift draws (sem-filter-processor.js lines 74-86)
as a function of the integer seed: eight successive rng() values mapped to
multipliers 1 + (u - 0.5) * span and biases (u - 0.5) * span. -/
def semDriftFromSeed (seed : ℕ) : SemDrift :=
  let p1 := mulberryNext seed
  let p2 := mulberryNext p1.1
  let p3 := mulberryNext p2.1
  let p4 := mulberryNext p3.1
  let p5 := mulberryNext p4.1
  let p6 := mulberryNext p5.1
  let p7 := mulberryNext p6.1
  let p8 := mulberryNext p7.1
  { cutoffDrift := 1 + (p1.2 - 1 / 2) * (1 / 10)
    resDrift := 1 + (p2.2 - 1 / 2) * (8 / 100)
    cap1Drift := 1 + (p3.2 - 1 / 2) * (6 / 100)
    cap2Drift := 1 + (p4.2 - 1 / 2) * (6 / 100)
    tanhAsymmetry1 := 1 + (p5.2 - 1 / 2) * (4 / 100)
    tanhAsymmetry2 := 1 + (p6.2 - 1 / 2) * (4 / 100)
    tanhBias1 := (p7.2 - 1 / 2) * (2 / 100)
    tanhBias2 := (p8.2 - 1 / 2) * (2 / 100) }

/-- One channel of part_002 updateBiasDrift (lines 149-166) for one block:
given the chaos control, the current drift value and target, and the three
ambient Math.random() draws the body consumes (retarget test, new target,
jitter), returns the new (drift, target).  The randoms are explicit inputs
because the source reads the global unseeded generator. -/
def updateBiasDriftStep (chaos drift target r1 r2 r3 : ℚ) : ℚ × ℚ :=
  let driftRate := 1 / 10000 + chaos * (5 / 10000)
  let driftAmount := chaos * (1 / 2)
  let target' := if r1 < 1 / 100 then (r2 - 1 / 2) * 2 * driftAmount else target
  let drift1 := drift + (target' - drift) * driftRate
  let drift2 := drift1 + (r3 - 1 / 2) * (1 / 1000) * chaos
  (drift2, target')

/-- Integrator state pair of the two-pole SVF variants (s1/ic1eq bandpass
state, s2/ic2eq lowpass state for one channel). -/
structure WaspState where
  s1 : ℚ
  s2 : ℚ
  deriving DecidableEq

/-- CMOS inverter nonlinearity of wasp-processor.js first class (lines
44-50) and of part_004 (lines 45-49), which are the same function: add
bias*0.1, gain by 1+drive*3, scale the positive side by 1.1 and the
negative side by 0.9, then fastTanh. -/
def cmosWasp (x bias drive : ℚ) : ℚ :=
  let gained := (x + bias * (1 / 10)) * (1 + drive * 3)
  let asymm := if gained ≥ 0 then gained * (11 / 10) else gained * (9 / 10)
  fastTanh asymm

/-- CMOS inverter nonlinearity of part_003 (lines 92-99): bias*0.05,
asymmetry 1.12/0.88 applied with the drive gain 1+drive*2.5, fastTanh,
plus the cubic grit term 0.08*driven*(1-clipped^2) scaled by drive. -/
def cmos3 (x bias drive : ℚ) : ℚ :=
  let biased := x + bias * (5 / 100)
  let asymmetry : ℚ := if biased ≥ 0 then 112 / 100 else 88 / 100
  let driven := biased * (1 + drive * (25 / 10)) * asymmetry
  let clipped := fastTanh driven
  let cubic := (8 / 100) * driven * (1 - clipped * clipped)
  clipped + cubic * drive

/-- Mode selection with interpolation shared by the WASP variants
(wasp-processor.js lines 141-150 with eps = 0.01, part_002 lines 251-262
and part_003 lines 166-175 with eps = 0.001): outputs = [lp,bp,hp,notch],
pick outputs[min(floor mode, 3)] when the fractional part is below eps or
floor mode is at least 3, otherwise blend the two adjacent outputs. -/
def waspModeSelect (eps mode lp bp hp notch : ℚ) : ℚ :=
  let outs := [lp, bp, hp, notch]
  let mf : ℤ := ⌊mode⌋
  let frac := mode - mf
  if frac < eps ∨ mf ≥ 3 then outs.getD (min mf 3).toNat 0
  else outs.getD mf.toNat 0 * (1 - frac) + outs.getD (mf.toNat + 1) 0 * frac

/-- part_003 processSample (lines 128-175) with the tangent factored out:
the source computes g = tan(pi * min(cutoff, rate*0.49) / rate) at line
131 and everything after that is the rational arithmetic below.  Returns
(selected output, new integrator state); state clamping is the tanh soft
limit fastTanh(s*0.5)*2 of lines 157-158. -/
def wasp3Sample (g v0 resonance mode drive bias : ℚ) (st : WaspState) : ℚ × WaspState :=
  let Q := 1 / 2 + resonance * (495 / 10)
  let k := 1 / Q
  let a1 := 1 / (1 + g * (g + k))
  let a2 := g * a1
  let a3 := g * a2
  let v3 := v0 - st.s2
  let v1 := cmos3 (a2 * v3 + a1 * st.s1) bias drive
  let v2 := cmos3 (a3 * v3 + a2 * st.s1 + st.s2) (bias * (7 / 10)) drive
  let s1' := fastTanh ((2 * v1 - st.s1) * (1 / 2)) * 2
  let s2' := fastTanh ((2 * v2 - st.s2) * (1 / 2)) * 2
  let lp := v2
  let bp := v1
  let hp := v0 - k * v1 - v2
  let notch := lp + hp
  (waspModeSelect (1 / 1000) mode lp bp hp notch, ⟨s1', s2'⟩)

/-- Per-sample body of wasp-processor.js first class process (lines
93-154), one channel, with the tangent factored out: the source computes
g = tan(pi * min(cutoff, sampleRate*0.49) / sampleRate) at lines 103-104.
Noise injection is absorbed into v0.  States are hard-clamped to [-4,4]
(lines 131-132); returns the saturated selected output of line 153 (the
DC blocker keeps separate state and is not part of the integrator
invariant). -/
def waspJsSample (g v0 res drive bias mode : ℚ) (st : WaspState) : ℚ × WaspState :=
  let Q := 1 / 2 + res * (495 / 10)
  let k := 1 / Q
  let a1 := 1 / (1 + g * (g + k))
  let a2 := g * a1
  let a3 := g * a2
  let v3 := v0 - st.s2
  let v1 := cmosWasp (a1 * st.s1 + a2 * v3) bias drive
  let v2 := cmosWasp (st.s2 + a2 * st.s1 + a3 * v3) (bias * (7 / 10)) drive
  let s1' := max (-4) (min 4 (2 * v1 - st.s1))
  let s2' := max (-4) (min 4 (2 * v2 - st.s2))
  let lp := v2
  let bp := v1
  let hp := v0 - k * v1 - v2
  let notch := lp + hp
  let filtered := waspModeSelect (1 / 100) mode lp bp hp notch
  (fastTanh (filtered * (1 + drive * (1 / 2))), ⟨s1', s2'⟩)

/-- Per-sample body of part_004 process (lines 96-139), with the tangent
factored out: the source computes g = tan(pi * min(cutoff, 0.49*fs) / fs)
at line 104.  k = 2 - res*1.98; states hard-clamped to [-5,5] (lines
119-120); mode selection has no interpolation (lines 124-129); returns
the saturated output of line 132 (the DC blocker of lines 135-137 keeps
separate state and is the identity on the first sample of a fresh
instance). -/
def wasp4Sample (g v0 res drive mode bias : ℚ) (st : WaspState) : ℚ × WaspState :=
  let k := 2 - res * (198 / 100)
  let hp := (v0 - k * st.s1 - st.s2) / (1 + k * g + g * g)
  let bp := cmosWasp (g * hp + st.s1) bias drive
  let lp := cmosWasp (g * bp + st.s2) (bias * (7 / 10)) drive
  let s1' := max (-5) (min 5 (2 * bp - st.s1))
  let s2' := max (-5) (min 5 (2 * lp - st.s2))
  let notch := hp + lp
  let filtered :=
    if mode < 1 / 2 then lp
    else if mode < 3 / 2 then bp
    else if mode < 5 / 2 then hp
    else notch
  (fastTanh (filtered * (1 + drive * (1 / 2))), ⟨s1', s2'⟩)

/-- One step of the part_001 Galois LFSR noise generator (generateNoise,
lines 114-121): the 32-bit state pattern is arithmetically shifted right
one bit, xored with 0xB4BCD35C when the dropped bit was set, and the low
16 bits are scaled to about -80 dB.  Returns (new state pattern, noise
sample). -/
def lfsrStep (s : ℕ) : ℕ × ℚ :=
  let bit := s % 2
  let sh := s / 2 + (if 2 ^ 31 ≤ s then 2 ^ 31 else 0)
  let s' := if bit = 1 then Nat.xor sh 0xB4BCD35C else sh
  (s', ((s' % 65536 : ℕ) / 65535 - 1 / 2) * (2 / 10000))

/-- Ladder filter state for one channel of part_001: the four stage
integrators, the previous output kept for resonance feedback, and the
LFSR noise state (shared across channels in the source; carried here with
the channel processed). -/
structure LadderState where
  st0 : ℚ
  st1 : ℚ
  st2 : ℚ
  st3 : ℚ
  feedbackState : ℚ
  noiseState : ℕ
  deriving DecidableEq

/-- One stage of the part_001 ladder loop body (lines 176-196): input
saturation blended by warmth, TPT one-pole integration with the stage
mismatch multiplier, and the 0.9999 leaky-integrator DC bleed.  Returns
(stage output y fed to the next stage, new stored stage state y*0.9999). -/
def ladderStage (g mi drive warmth x si : ℚ) : ℚ × ℚ :=
  let driveScale := 1 + drive * 3
  let stageG := g * mi
  let saturatedInput := fastTanh (x * driveScale * (1 + drive * (1 / 2)))
  let stageInput := x + (saturatedInput - x) * warmth
  let y := si + stageG * (stageInput - si)
  (y, y * (9999 / 10000))

/-- part_001 processLadder (lines 151-202): feedback saturation blended
by warmth, resonance subtraction input = x - k*feedback, LFSR noise
added, then the four cascaded stages with mismatch multipliers m0..m3
(drawn once at construction in the source), storing stages[3] as the next
feedback value.  The source applies no clamp and no denormal flush to the
stage states. -/
def processLadder (g k drive warmth m0 m1 m2 m3 : ℚ) (input : ℚ) (st : LadderState) :
    ℚ × LadderState :=
  let feedback := st.feedbackState
  let saturatedFeedback := fastTanh (feedback * (1 + drive))
  let blendedFeedback := feedback + (saturatedFeedback - feedback) * warmth
  let nz := lfsrStep st.noiseState
  let x := input - k * blendedFeedback + nz.2
  let r0 := ladderStage g m0 drive warmth x st.st0
  let r1 := ladderStage g m1 drive warmth r0.1 st.st1
  let r2 := ladderStage g m2 drive warmth r1.1 st.st2
  let r3 := ladderStage g m3 drive warmth r2.1 st.st3
  (r3.2, ⟨r0.2, r1.2, r2.2, r3.2, r3.2, nz.1⟩)

/-- part_000 saturate (lines 104-111): scale by amount, apply the
asymmetric fastTanh (multiply by asymmetry when the scaled value is
non-negative, divide otherwise), and rescale by 1/amount. -/
def saturate0 (x amount asymmetry : ℚ) : ℚ :=
  let scaled := x * amount
  if scaled ≥ 0 then fastTanh (scaled * asymmetry) / amount
  else fastTanh (scaled / asymmetry) / amount

/-- Construction-time drift values of part_000 (lines 70-80) that enter
processSample: capacitor and resonance drifts, saturation amount,
asymmetry and DC offset.  All are reachable at the neutral values 1 (and
offset 0) when the corresponding rng draws are exactly 0.5. -/
structure Sem0Params where
  cutoffDrift : ℚ
  resDrift : ℚ
  capDrift1 : ℚ
  capDrift2 : ℚ
  saturationAmount : ℚ
  asymmetry : ℚ
  dcOffset : ℚ
  deriving DecidableEq

/-- part_000 processSample (lines 159-242) with the tangent factored out:
the source computes g = tan(pi * min(fc*cutoffDrift/sr, 0.49)) at line
165.  Input drive and saturation, the ZDF highpass solve, the two
integrator outputs, output saturation mixed at satMix = 0.3, and the
denormal flush on both state writes (the source applies no clamp). -/
def sem0Sample (g : ℚ) (p : Sem0Params) (x0 res morph drive : ℚ) (st : WaspState) :
    ℚ × WaspState :=
  let g1 := g * p.capDrift1
  let g2 := g * p.capDrift2
  let k := (1 / 50 + res * (2 - 1 / 50)) * p.resDrift
  let x := saturate0 (x0 * drive) p.saturationAmount p.asymmetry + p.dcOffset
  let denom := 1 / (1 + g1 * k + g1 * g2)
  let hp := (x - (k + g1) * st.s1 - st.s2) * denom
  let v1 := g1 * hp
  let bp := v1 + st.s1
  let v2 := g2 * bp
  let lp := v2 + st.s2
  let bpSat := saturate0 bp (p.saturationAmount * (7 / 10)) p.asymmetry
  let lpSat := saturate0 lp (p.saturationAmount * (7 / 10)) p.asymmetry
  let s1' := flushDenormalQ (v1 + bp * (7 / 10) + bpSat * (3 / 10))
  let s2' := flushDenormalQ (v2 + lp * (7 / 10) + lpSat * (3 / 10))
  let out :=
    if morph ≤ 0 then lp * (1 - (morph + 1)) + (lp + hp) * (morph + 1)
    else (lp + hp) * (1 - morph) + hp * morph
  (out, ⟨s1', s2'⟩)

/-- The osf = 1 block loop of part_000 process (lines 267-276) over one
channel with block-rate (length-1) automation values: each input sample
is fed through processSample, threading the integrator state. -/
def sem0Run (g : ℚ) (p : Sem0Params) (res morph drive : ℚ) :
    List ℚ → WaspState → List ℚ × WaspState
  | [], st => ([], st)
  | x :: xs, st =>
    let r := sem0Sample g p x res morph drive st
    let rest := sem0Run g p res morph drive xs r.2
    (r.1 :: rest.1, rest.2)

/-- Block entry point of part_000 process (lines 244-248): when the input
channel data is absent the source returns immediately (line 248), leaving
the host-owned, zero-initialized output buffer out0 untouched and the
integrator state unchanged; otherwise the block is processed. -/
def sem0ProcessBlock (g : ℚ) (p : Sem0Params) (input? : Option (List ℚ)) (out0 : List ℚ)
    (res morph drive : ℚ) (st : WaspState) : List ℚ × WaspState :=
  match input? with
  | none => (out0, st)
  | some inp => sem0Run g p res morph drive inp st

/-- Reading one sample of a possibly-absent input channel as part_003
process does (lines 201, 207): a null channel reads as 0, a present
channel reads its sample. -/
def blockInput (input? : Option (List ℚ)) (i : ℕ) : ℚ :=
  match input? with
  | none => 0
  | some l => l.getD i 0

/-- Per-channel mutable state of the part_003 block loop: SVF integrators,
the previous input sample kept by the 2x oversampling interpolator, and
the DC blocker pair. -/
structure Wasp3State where
  s1 : ℚ
  s2 : ℚ
  prev : ℚ
  dcX : ℚ
  dcY : ℚ
  deriving DecidableEq

/-- part_003 dcBlock (lines 117-123) with R = 0.995: returns the blocked
sample and the new (dcX, dcY) pair. -/
def dcBlockStep (x dcX dcY : ℚ) : ℚ × ℚ × ℚ :=
  let y := x - dcX + (995 / 1000) * dcY
  (y, x, y)

/-- Body of the part_003 block loop (lines 206-229) with block-rate
automation scalars, driven by the list of ambient Math.random() draws
(one per sample, for the noise injection of line 214): interpolate a
midpoint from the previous sample, run processSample twice at the
oversampled rate, average, saturate, and DC-block. -/
def wasp3Run (g res mode drive bias chaos : ℚ) (inp : ℕ → ℚ) :
    List ℚ → ℕ → Wasp3State → List ℚ × Wasp3State
  | [], _, st => ([], st)
  | r :: rs, i, st =>
    let noise := (r - 1 / 2) * (5 / 100000) * (1 + chaos)
    let v0 := inp i + noise
    let mid := (st.prev + v0) * (1 / 2)
    let o1 := wasp3Sample g mid res mode drive bias ⟨st.s1, st.s2⟩
    let o2 := wasp3Sample g v0 res mode drive bias o1.2
    let filtered := (o1.1 + o2.1) * (1 / 2)
    let saturated := fastTanh (filtered * (1 + drive * (3 / 10)))
    let d := dcBlockStep saturated st.dcX st.dcY
    let rest := wasp3Run g res mode drive bias chaos inp rs (i + 1)
      ⟨o2.2.s1, o2.2.s2, v0, d.2.1, d.2.2⟩
    (d.1 :: rest.1, rest.2)

/-- Block entry point of part_003 process (lines 177-233) for one channel:
a missing input channel is read as silence sample-by-sample (blockInput),
not an error, and the block is still produced. -/
def wasp3ProcessBlock (g res mode drive bias chaos : ℚ) (input? : Option (List ℚ))
    (rands : List ℚ) (st : Wasp3State) : List ℚ × Wasp3State :=
  wasp3Run g res mode drive bias chaos (blockInput input?) rands 0 st

/-- Ratio fed to the tangent by sem-filter-processor.js processSVF line
186: min(cutoff*cutoffDrift/sr, 0.499). -/
def semTanRatio (cutoffHz sr cutoffDrift : ℚ) : ℚ :=
  min (cutoffHz * cutoffDrift / sr) (499 / 1000)

/-- Ratio fed to the tangent by part_000 processSample line 165:
min(cutoff*cutoffDrift/sr, 0.49). -/
def sem0TanRatio (cutoffHz sr cutoffDrift : ℚ) : ℚ :=
  min (cutoffHz * cutoffDrift / sr) (49 / 100)

/-- Ratio fed to the tangent by part_001 process line 264:
min(modulatedCutoff/fs, 0.49). -/
def ladderTanRatio (cutoff fs : ℚ) : ℚ :=
  min (cutoff / fs) (49 / 100)

/-- Ratio fed to the tangent by part_003 processSample lines 130-131:
min(cutoff, 0.49*rate)/rate. -/
def wasp3TanRatio (cutoff rate : ℚ) : ℚ :=
  min cutoff (rate * (49 / 100)) / rate

/-- Ratio fed to the tangent by part_002 processSample line 205: the raw
cutoff/(2*baseRate) with sampleRate = 2*base (line 69) and no clamp of
any kind. -/
def wasp2TanRatio (cutoff baseRate : ℚ) : ℚ :=
  cutoff / (baseRate * 2)

lemma fastTanh_le_one (x : ℚ) : fastTanh x ≤ 1 := by
  unfold fastTanh
  split_ifs with h1 h2
  · norm_num
  · norm_num
  · have hx2 : x ≤ 3 := le_of_not_lt h2
    rw [div_le_one (by positivity)]
    nlinarith [mul_nonneg (mul_nonneg (sub_nonneg.2 hx2) (sub_nonneg.2 hx2)) (sub_nonneg.2 hx2)]

lemma neg_one_le_fastTanh (x : ℚ) : -1 ≤ fastTanh x := by
  unfold fastTanh
  split_ifs with h1 h2
  · norm_num
  · norm_num
  · have hx1 : -3 ≤ x := le_of_not_lt h1
    rw [le_div_iff₀ (by positivity)]
    have h3 : (0 : ℚ) ≤ x + 3 := by linarith
    nlinarith [mul_nonneg (mul_nonneg h3 h3) h3]

lemma fastTanh_mono {a b : ℚ} (hab : a ≤ b) : fastTanh a ≤ fastTanh b := by
  rcases lt_or_le a (-3) with ha | ha
  · have h : fastTanh a = -1 := by unfold fastTanh; rw [if_pos ha]
    rw [h]; exact neg_one_le_fastTanh b
  · rcases lt_or_le 3 b with hb | hb
    · have h : fastTanh b = 1 := by
        unfold fastTanh
        rw [if_neg (by linarith), if_pos hb]
      rw [h]; exact fastTanh_le_one a
    · unfold fastTanh
      rw [if_neg (not_lt.2 ha), if_neg (not_lt.2 (hab.trans hb)),
        if_neg (not_lt.2 (ha.trans hab)), if_neg (not_lt.2 hb)]
      rw [div_le_div_iff₀ (by positivity) (by positivity)]
      nlinarith [mul_nonneg (sub_nonneg.2 hab)
        (add_nonneg (sq_nonneg (a * b - 9))
          (mul_nonneg (by norm_num : (0 : ℚ) ≤ 3) (sq_nonneg (a - b))))]

lemma fastTanh_odd (x : ℚ) : fastTanh (-x) = -fastTanh x := by
  unfold fastTanh
  by_cases h1 : x < -3
  · rw [if_pos h1, if_neg (not_lt.2 (by linarith : (-3 : ℚ) ≤ -x)),
      if_pos (by linarith : (3 : ℚ) < -x)]
    norm_num
  · by_cases h2 : x > 3
    · rw [if_neg h1, if_pos h2, if_pos (by linarith : -x < -3)]
    · have hx1 : -3 ≤ x := not_lt.1 h1
      have hx2 : x ≤ 3 := not_lt.1 h2
      rw [if_neg h1, if_neg h2, if_neg (not_lt.2 (by linarith : (-3 : ℚ) ≤ -x)),
        if_neg (not_lt.2 (by linarith : -x ≤ 3))]
      ring

lemma clamp_abs_le {b x : ℚ} (hb : 0 ≤ b) : |max (-b) (min b x)| ≤ b := by
  rw [abs_le]
  exact ⟨le_max_left _ _, max_le (by linarith) (min_le_left _ _)⟩

lemma getD_replicate_zero : ∀ n i : ℕ, (List.replicate n (0 : ℚ)).getD i 0 = 0
  | 0, _ => rfl
  | _ + 1, 0 => rfl
  | n + 1, i + 1 => getD_replicate_zero n i

lemma getD_eq_get (l : List ℚ) (i : ℕ) (h : i < l.length) : l.getD i 0 = l.get ⟨i, h⟩ := by
  induction l generalizing i with
  | nil => simp at h
  | cons a t ih =>
    cases i with
    | zero => rfl
    | succ n => exact ih n (by simpa using h)

lemma waspModeSelect_half (lp bp hp notch : ℚ) :
    waspModeSelect (1 / 1000) (1 / 2) lp bp hp notch
      = (waspModeSelect (1 / 1000) 0 lp bp hp notch
          + waspModeSelect (1 / 1000) 1 lp bp hp notch) / 2 := by
  have hh : ⌊(1 / 2 : ℚ)⌋ = 0 := by
    norm_num
  unfold waspModeSelect
  rw [hh, Int.floor_zero, Int.floor_one]
  norm_num [List.getD]
  ring

/-- C4: the shared fast hyperbolic tangent approximation is odd-symmetric,
monotonic non-decreasing, and bounded to [-1,1] on all rational inputs,
with exact saturation to +-1 beyond +-3 built into the definition. -/
theorem fastTanh_odd_monotone_bounded (x y : ℚ) :
    fastTanh (-x) = -fastTanh x ∧ (x ≤ y → fastTanh x ≤ fastTanh y)
      ∧ -1 ≤ fastTanh x ∧ fastTanh x ≤ 1 :=
  ⟨fastTanh_odd x, fun h => fastTanh_mono h, neg_one_le_fastTanh x, fastTanh_le_one x⟩

/-- Witness for C4 at x = 2, y = 3. -/
theorem fastTanh_odd_monotone_bounded_witness :
    fastTanh (-2) = -fastTanh 2 ∧ fastTanh 2 ≤ fastTanh 3
      ∧ -1 ≤ fastTanh 2 ∧ fastTanh 2 ≤ 1 := by
  obtain ⟨h1, h2, h3, h4⟩ := fastTanh_odd_monotone_bounded 2 3
  exact ⟨h1, h2 (by norm_num), h3, h4⟩

/-- C1 counterexample: the hard-coded halfband FIR coefficient set does
not sum to 1.0 within 1e-6; the exact sum is 0.99570576, about 4.3e-3
below unity. -/
theorem halfband_sum_not_unity : ¬ |halfbandCoeffs.sum - 1| ≤ 1 / 1000000 := by
  have h : halfbandCoeffs.sum - 1 = -(429424 / 100000000) := by norm_num [halfbandCoeffs]
  rw [h, abs_neg, abs_of_nonneg (by norm_num)]
  norm_num

/-- C1 (amended): the hard-coded halfband FIR coefficients sum to exactly
0.99570576 — unity DC gain holds only to within 4.3e-3, not 1e-6. -/
theorem halfband_sum_exact : halfbandCoeffs.sum = 99570576 / 100000000 := by
  norm_num [halfbandCoeffs]

/-- C2 (amended): the guard discipline is per variant, not universal.  The
wasp-processor.js first-class step hard-clamps both integrator states to
[-4,4] and the part_004 step to [-5,5] after every sample, for all inputs,
coefficients and prior states; but no variant applies both a denormal
flush and a clamp, and the ladder and SEM SVF variants apply no clamp at
all (see the counterexample). -/
theorem wasp_states_clamped (g v0 res drive bias mode : ℚ) (st : WaspState) :
    |(waspJsSample g v0 res drive bias mode st).2.s1| ≤ 4
    ∧ |(waspJsSample g v0 res drive bias mode st).2.s2| ≤ 4
    ∧ |(wasp4Sample g v0 res drive mode bias st).2.s1| ≤ 5
    ∧ |(wasp4Sample g v0 res drive mode bias st).2.s2| ≤ 5 :=
  ⟨clamp_abs_le (by norm_num), clamp_abs_le (by norm_num),
   clamp_abs_le (by norm_num), clamp_abs_le (by norm_num)⟩

/-- C2 counterexample: a single processLadder call leaves a stage
integrator above any 4-5 clamp bound, because part_001 applies neither
clamp nor flush to its stage states.  The inputs are reachable: g = 1 is
tan(pi*fc/fs) at fc = fs/4 (below the 0.49 clamp of line 264), k = 0 at
resonance 0, mismatch multipliers 1 at construction draws of 0.5, drive
and warmth 0, zero initial state, LFSR seed 0x7FFFFFFF from line 81, and
an input sample of amplitude 10. -/
theorem ladder_state_exceeds_bound :
    ¬ |(processLadder 1 0 0 0 1 1 1 1 10 ⟨0, 0, 0, 0, 0, 0x7FFFFFFF⟩).2.st0| ≤ 5 := by
  have hx : Nat.xor 1073741823 3032273756 = 2336435363 := by decide
  rw [not_le]
  refine lt_of_lt_of_le ?_ (le_abs_self _)
  norm_num [processLadder, ladderStage, lfsrStep, fastTanh, hx]

/-- C3 (amended theorem): the seeded construction path is deterministic —
for equal integer seeds the eight Mulberry32 draws and the derived
tolerance multipliers of the SEM constructor coincide exactly, since the
generator state is a pure function of the seed and no ambient entropy
enters (contrast the counterexample for the bias-drift half of the
claim). -/
theorem semDrift_deterministic (a b n : ℕ) (h : a = b) :
    semDriftFromSeed a = semDriftFromSeed b ∧ mulberryStream a n = mulberryStream b n := by
  subst h
  exact ⟨rfl, rfl⟩

/-- Witness for C3 at seed 1234 with a four-draw trajectory. -/
theorem semDrift_deterministic_witness :
    semDriftFromSeed 1234 = semDriftFromSeed 1234
    ∧ mulberryStream 1234 4 = mulberryStream 1234 4 :=
  semDrift_deterministic 1234 1234 4 rfl

/-- C3 counterexample: the bias-drift advance is not determined by the
seed and the chaos input.  part_002 updateBiasDrift reads the ambient
unseeded Math.random(); two runs from the same state with the same chaos
value 1 but different ambient draws (jitter draw 1 versus 0) produce
different drift values (1/2000 versus -1/2000), so two engines with the
same seed diverge on identical chaos inputs. -/
theorem biasDrift_not_seed_determined :
    (updateBiasDriftStep 1 0 0 (1 / 2) (1 / 2) 1).1
      ≠ (updateBiasDriftStep 1 0 0 (1 / 2) (1 / 2) 0).1 := by
  norm_num [updateBiasDriftStep]

/-- C5 (amended): every variant except part_002 feeds the tangent a
clamped ratio: at most 0.499 in sem-filter-processor.js and at most 0.49
in part_000, part_001 and part_003, for all cutoffs, drifts and (for
part_003, positive) sample rates — all strictly below the 0.5 singularity.
part_002 is the exception (see the counterexample). -/
theorem tan_ratio_clamped (c sr d : ℚ) :
    semTanRatio c sr d ≤ 499 / 1000
    ∧ sem0TanRatio c sr d ≤ 49 / 100
    ∧ ladderTanRatio c sr ≤ 49 / 100
    ∧ (0 < sr → wasp3TanRatio c sr ≤ 49 / 100) := by
  refine ⟨min_le_right _ _, min_le_right _ _, min_le_right _ _, fun hsr => ?_⟩
  unfold wasp3TanRatio
  rw [div_le_iff₀ hsr]
  calc min c (sr * (49 / 100)) ≤ sr * (49 / 100) := min_le_right _ _
    _ = 49 / 100 * sr := by ring

/-- Witness for C5 at cutoff 20000 Hz, sample rate 48000 Hz, drift 1. -/
theorem tan_ratio_clamped_witness :
    semTanRatio 20000 48000 1 ≤ 499 / 1000
    ∧ sem0TanRatio 20000 48000 1 ≤ 49 / 100
    ∧ ladderTanRatio 20000 48000 ≤ 49 / 100
    ∧ wasp3TanRatio 20000 48000 ≤ 49 / 100 := by
  obtain ⟨h1, h2, h3, h4⟩ := tan_ratio_clamped 20000 48000 1
  exact ⟨h1, h2, h3, h4 (by norm_num)⟩

/-- C5 counterexample: part_002 computes the tangent argument with no
clamp; at the maximum host cutoff 20000 Hz and a valid base sample rate
of 8000 Hz the ratio is 20000/16000 = 1.25, far above every clamp
constant and past the pi/2 singularity, so the claim that the ratio is
clamped below 0.49-0.499 in every variant is false. -/
theorem wasp2_tan_ratio_unclamped :
    wasp2TanRatio 20000 8000 = 5 / 4 ∧ ¬ wasp2TanRatio 20000 8000 ≤ 499 / 1000 := by
  norm_num [wasp2TanRatio]

/-- C6 (amended): mode-interpolation linearity holds at the per-sample
filter core of part_003: at mode 0.5 the processSample output is exactly
the average of the mode 0 (pure LP) and mode 1 (pure BP) outputs from the
same state, and the state evolution is mode-independent.  It fails at the
block level, where a nonlinear output saturation follows mode selection,
and in part_004, which does not interpolate (see the counterexample). -/
theorem wasp3_mode_half_averages (g v0 res drive bias : ℚ) (st : WaspState) :
    (wasp3Sample g v0 res (1 / 2) drive bias st).1
      = ((wasp3Sample g v0 res 0 drive bias st).1
          + (wasp3Sample g v0 res 1 drive bias st).1) / 2
    ∧ (wasp3Sample g v0 res (1 / 2) drive bias st).2 = (wasp3Sample g v0 res 0 drive bias st).2
    ∧ (wasp3Sample g v0 res (1 / 2) drive bias st).2 = (wasp3Sample g v0 res 1 drive bias st).2 := by
  refine ⟨?_, rfl, rfl⟩
  exact waspModeSelect_half _ _ _ _

/-- C6 counterexample: in the part_004 variant, the output sample at mode
0.5 is not the average of the mode 0 and mode 1 outputs computed from the
same initial state: mode 0.5 falls in the bandpass branch of the
uninterpolated mode select, and the output saturation is nonlinear.  The
inputs are reachable: g = 1 at cutoff = fs/4, fresh zero state (where the
DC blocker is the identity), resonance, drive and bias 0, input 1. -/
theorem wasp4_mode_half_not_average :
    (wasp4Sample 1 1 0 0 (1 / 2) 0 ⟨0, 0⟩).1
      ≠ ((wasp4Sample 1 1 0 0 0 0 ⟨0, 0⟩).1 + (wasp4Sample 1 1 0 0 1 0 ⟨0, 0⟩).1) / 2 := by
  norm_num [wasp4Sample, cmosWasp, fastTanh]

/-- C7 (amended): the part_003 block entry point treats a missing input
channel exactly as a zero-filled buffer processed through the filter: for
every coefficient set, parameter set, ambient noise draw list and prior
state, processing with an absent channel equals processing a replicated
zero buffer of any length.  The SEM variants and the ladder instead
return early without processing (see the counterexample). -/
theorem wasp3_missing_input_silence (g res mode drive bias chaos : ℚ) (rands : List ℚ)
    (st : Wasp3State) (n : ℕ) :
    wasp3ProcessBlock g res mode drive bias chaos none rands st
      = wasp3ProcessBlock g res mode drive bias chaos (some (List.replicate n 0)) rands st := by
  unfold wasp3ProcessBlock
  have h : blockInput none = blockInput (some (List.replicate n 0)) := by
    funext i
    exact (getD_replicate_zero n i).symm
  rw [h]

/-- C7 counterexample: the part_000 SEM block entry point does not treat
missing input as processed silence: with a missing channel it returns
without touching the output buffer or the state, whereas processing an
explicit zero buffer from the same nonzero integrator state produces the
filter tail -1/101 in the output.  Inputs reachable: g = 1 at cutoff =
fs/4, neutral drift parameters (construction draws 0.5), resonance 0,
morph 0, drive 1, state s1 = 1. -/
theorem sem0_missing_input_not_silence :
    (sem0ProcessBlock 1 ⟨1, 1, 1, 1, 1, 1, 0⟩ none [0] 0 0 1 ⟨1, 0⟩).1
      ≠ (sem0ProcessBlock 1 ⟨1, 1, 1, 1, 1, 1, 0⟩ (some [0]) [0] 0 0 1 ⟨1, 0⟩).1 := by
  norm_num [sem0ProcessBlock, sem0Run, sem0Sample, saturate0, flushDenormalQ, fastTanh,
    denormalThreshold]

/-- C8: the oversample factor actually used is always one of 1, 2, 4; a
requested factor of 3 maps to 2; requests below 1 yield 1 and above 4
yield 4. -/
theorem oversample_quantized (p : ℚ) :
    (quantizeOversample p = 1 ∨ quantizeOversample p = 2 ∨ quantizeOversample p = 4)
    ∧ quantizeOversample 3 = 2
    ∧ (p < 1 → quantizeOversample p = 1)
    ∧ (4 < p → quantizeOversample p = 4) := by
  refine ⟨?_, ?_, fun hp => ?_, fun hp => ?_⟩
  · simp only [quantizeOversample]
    split_ifs <;> omega
  · have h3 : jsRound (3 : ℚ) = 3 := by
      unfold jsRound
      norm_num
    simp only [quantizeOversample, h3]
    norm_num
  · have h2 : jsRound p < 2 := by
      unfold jsRound
      exact Int.floor_lt.mpr (by push_cast; linarith)
    simp only [quantizeOversample]
    split_ifs <;> omega
  · have h2 : 4 ≤ jsRound p := by
      unfold jsRound
      exact Int.le_floor.mpr (by push_cast; linarith)
    simp only [quantizeOversample]
    split_ifs <;> omega

/-- Witness for C8 at requested factors 1/2, 3 and 5. -/
theorem oversample_quantized_witness :
    (quantizeOversample (1 / 2) = 1 ∨ quantizeOversample (1 / 2) = 2
      ∨ quantizeOversample (1 / 2) = 4)
    ∧ quantizeOversample 3 = 2
    ∧ quantizeOversample (1 / 2) = 1
    ∧ quantizeOversample 5 = 4 := by
  obtain ⟨hm, h3, h1, _⟩ := oversample_quantized (1 / 2)
  obtain ⟨_, _, _, h4⟩ := oversample_quantized 5
  exact ⟨hm, h3, h1 (by norm_num), h4 (by norm_num)⟩

/-- C9: for an automation sequence of length 1 or N and a sample index in
range, the resolved per-sample value is sequence[i] when the sequence has
more than one element and sequence[0] otherwise. -/
theorem resolveParam_spec (seq : List ℚ) (i : ℕ) (h : i < seq.length) :
    (1 < seq.length → resolveParam seq i = seq.get ⟨i, h⟩)
    ∧ (seq.length = 1 → resolveParam seq i = seq.get ⟨0, by omega⟩) := by
  constructor
  · intro hlen
    unfold resolveParam
    rw [if_pos hlen]
    exact getD_eq_get seq i h
  · intro hlen
    unfold resolveParam
    rw [if_neg (by omega)]
    exact getD_eq_get seq 0 (by omega)

/-- Witness for C9 on the sample-rate sequence [5,7] at index 1 and the
block-rate sequence [5] at index 0. -/
theorem resolveParam_spec_witness :
    resolveParam [5, 7] 1 = 7 ∧ resolveParam [5] 0 = 5 := by
  have h1 := (resolveParam_spec [5, 7] 1 (by norm_num)).1 (by norm_num)
  have h2 := (resolveParam_spec [5] 0 (by norm_num)).2 (by norm_num)
  exact ⟨h1, h2⟩

/-- C10: flushDenormal returns its argument unchanged when the magnitude
exceeds the 1e-18 threshold, returns exactly 0 for every other number,
returns 0 on NaN because both JS comparisons are false on NaN, and hence
never returns NaN. -/
theorem flushDenormal_spec (x : JSVal) (q : ℚ) :
    (x = JSVal.num q → denormalThreshold < |q| → flushDenormal x = x)
    ∧ (x = JSVal.num q → |q| ≤ denormalThreshold → flushDenormal x = JSVal.num 0)
    ∧ (x = JSVal.nan → flushDenormal x = JSVal.num 0)
    ∧ flushDenormal x ≠ JSVal.nan := by
  refine ⟨?_, ?_, ?_, ?_⟩
  · rintro rfl hq
    rcases le_or_lt 0 q with hs | hs
    · rw [abs_of_nonneg hs] at hq
      simp [flushDenormal, JSVal.gtQ, hq]
    · rw [abs_of_neg hs] at hq
      have hq2 : q < -denormalThreshold := by linarith
      simp [flushDenormal, JSVal.gtQ, JSVal.ltQ, hq2]
  · rintro rfl hq
    rw [abs_le] at hq
    simp [flushDenormal, JSVal.gtQ, JSVal.ltQ, not_lt.2 hq.1, not_lt.2 hq.2]
  · rintro rfl
    simp [flushDenormal, JSVal.gtQ, JSVal.ltQ]
  · cases x with
    | num r =>
      unfold flushDenormal
      split_ifs <;> simp
    | nan =>
      simp [flushDenormal, JSVal.gtQ, JSVal.ltQ]

/-- Witness for C10 at the number 1/2 (above threshold) and at NaN. -/
theorem flushDenormal_spec_witness :
    flushDenormal (JSVal.num (1 / 2)) = JSVal.num (1 / 2)
    ∧ flushDenormal JSVal.nan = JSVal.num 0
    ∧ flushDenormal (JSVal.num (1 / 2)) ≠ JSVal.nan := by
  obtain ⟨h1, _, _, h4⟩ := flushDenormal_spec (JSVal.num (1 / 2)) (1 / 2)
  obtain ⟨_, _, h3, _⟩ := flushDenormal_spec JSVal.nan 0
  refine ⟨h1 rfl ?_, h3 rfl, h4⟩
  rw [abs_of_nonneg (by norm_num)]
  norm_num [denormalThreshold]
